import Mathlib

/-!
Shallow embedding of src/tagberry/epc/EPCNumber.py (class EPCNumber, the base class of
all EPC encodings) together with theorems about its hex conversion, field mutation,
serial-number arithmetic and format dispatch.  Parts of the repository that this code
needs but that are not under src — the Field and FieldDictionary classes imported from
tagberry.schema, and the hooks that the base class leaves to the concrete scheme
classes (the bit-string resynthesis called as self._updateBitString(), the body of
validate_serial_number, and decodeFromBinary) — are modelled from the specification;
each such definition carries a doc comment starting with "Modelled from the spec:".
Python exceptions are embedded as an error type returned through Except.
-/

namespace Tagberry

/-- Modelled from the spec: the value slot of a Field (§3 of the spec; the Field class
from tagberry.schema is not under src).  A field value is an unsigned integer or a
fixed-length digit string; Python stores these as int or str, embedded as this sum. -/
inductive FieldVal where
  | int (i : Int)
  | str (s : String)
  deriving DecidableEq

/-- Modelled from the spec: a Field (§3, §4.1; the Field class from tagberry.schema is
not under src): a named, fixed-width value slot.  `bitWidth` is the resolved bit width,
`charLength` the fixed character length for digit-string fields (0 when numeric). -/
structure Field where
  name : String
  bitWidth : Nat
  charLength : Nat
  value : FieldVal
  deriving DecidableEq

/-- Python exception kinds raised (or documented as raised) by the embedded code:
`fieldValueError` embeds FieldValueException (the spec taxonomy calls it
FieldValueError), `invalidSerialNumberError` the serial-number validation failure,
`unknownFieldError` a FieldDictionary lookup miss, and the remaining constructors the
builtin Python exceptions the code can raise (IndexError from str.format,
TypeError/ValueError from int(), NotImplemented for the unimplemented getter,
`encodingError` for a non-canonical binary string on the decode path). -/
inductive EpcError where
  | fieldValueError (msg : String)
  | invalidSerialNumberError (msg : String)
  | unknownFieldError (name : String)
  | notImplementedError (msg : String)
  | indexError (msg : String)
  | typeError (msg : String)
  | valueError (msg : String)
  | encodingError (msg : String)
  deriving DecidableEq

/-- ASCII lowering of one character, embedding Python's str.lower() on the ASCII keys
this code uses. -/
def pyCharLower (c : Char) : Char :=
  if 65 ≤ c.toNat ∧ c.toNat ≤ 90 then Char.ofNat (c.toNat + 32) else c

/-- Embedding of Python's str.lower() (ASCII). -/
def pyLower (s : String) : String := ⟨s.data.map pyCharLower⟩

/-- ASCII raising of one character, embedding Python's str.upper(). -/
def pyCharUpper (c : Char) : Char :=
  if 97 ≤ c.toNat ∧ c.toNat ≤ 122 then Char.ofNat (c.toNat - 32) else c

/-- Embedding of Python's str.upper() (ASCII). -/
def pyUpper (s : String) : String := ⟨s.data.map pyCharUpper⟩

/-- Value of a '0'/'1' string read in base 2, embedding Python's int(s, 2) on valid
bit strings. -/
def natOfBits (s : String) : Nat :=
  s.data.foldl (fun acc c => 2 * acc + (if c = '1' then 1 else 0)) 0

/-- Value of one hex digit character. -/
def hexDigitVal (c : Char) : Nat :=
  if c.isDigit then c.toNat - 48
  else if 97 ≤ c.toNat ∧ c.toNat ≤ 102 then c.toNat - 87
  else if 65 ≤ c.toNat ∧ c.toNat ≤ 70 then c.toNat - 55
  else 0

/-- True for a hexadecimal digit character. -/
def isHexDigitChar (c : Char) : Bool :=
  c.isDigit || decide (97 ≤ c.toNat ∧ c.toNat ≤ 102) || decide (65 ≤ c.toNat ∧ c.toNat ≤ 70)

/-- Value of a hex string, embedding Python's int(s, 16) on valid hex strings. -/
def natOfHex (s : String) : Nat :=
  s.data.foldl (fun acc c => 16 * acc + hexDigitVal c) 0

/-- Value of a decimal digit string. -/
def natOfDec (s : String) : Nat :=
  s.data.foldl (fun acc c => 10 * acc + (c.toNat - 48)) 0

/-- Number of decimal digits of a nonnegative integer. -/
def decimalLen (i : Int) : Nat := (Nat.toDigits 10 i.toNat).length

/-- Embedding of Python's int() applied to a stored field value: the identity on ints,
decimal parsing on digit strings, ValueError otherwise. -/
def pyInt : FieldVal → Except EpcError Int
  | .int i => .ok i
  | .str s =>
      if s ≠ "" ∧ s.data.all Char.isDigit then .ok ((natOfDec s : Nat) : Int)
      else .error (.valueError "invalid literal for int() with base 10")

/-- Embedding of Python's bin(): the string "0b" followed by the binary digits of n
with no leading zeros (bin(0) = "0b0"). -/
def pyBin (n : Nat) : String := "0b" ++ (⟨Nat.toDigits 2 n⟩ : String)

/-- The binary representation of n zero-padded on the left to width w (used by the
spec-modelled bit-string synthesis). -/
def padBinary (n w : Nat) : String :=
  ⟨List.replicate (w - (Nat.toDigits 2 n).length) '0' ++ Nat.toDigits 2 n⟩

/-- True for a '0' or '1' character. -/
def isBitChar (c : Char) : Bool := c == '0' || c == '1'

/-- Reads the digits of a \x7bn\x7d replacement field of a Python format string up to
the closing brace; returns the index and the rest of the template. -/
def digitsVal : List Char → Nat → Option (Nat × List Char)
  | [], _ => none
  | c :: rest, acc =>
      if c = '\x7d' then some (acc, rest)
      else if c.isDigit then digitsVal rest (acc * 10 + (c.toNat - 48))
      else none

/-- Core of the embedding of Python's str.format with positional replacement fields:
walks the template, substituting \x7bi\x7d with args[i]; returns none when a
replacement index is out of range (Python raises IndexError there).  The fuel is the
template length; each step consumes at least one template character. -/
def pyFormatGo : Nat → List Char → List String → Option (List Char)
  | _, [], _ => some []
  | 0, _ :: _, _ => none
  | fuel + 1, c :: rest, args =>
      if c = '\x7b' then
        match digitsVal rest 0 with
        | none => none
        | some (i, rest') =>
            match args.get? i with
            | none => none
            | some s => (pyFormatGo fuel rest' args).map (fun t => s.data ++ t)
      else (pyFormatGo fuel rest args).map (fun t => c :: t)

/-- Embedding of Python's str.format with positional replacement fields. -/
def pyFormat (template : String) (args : List String) : Option String :=
  (pyFormatGo template.data.length template.data args).map (fun l => ⟨l⟩)

/-- The state of an EPCNumber instance: the attributes set in __init__ (src lines
13-23).  `fieldDictionary` is the ordered field collection (its FieldDictionary class
is not under src and is modelled from spec §4.2 as a layout-ordered association list),
`bits` is _bits (None until first synthesis), and the remaining attributes carry the
constructor arguments. -/
structure EPCNumber where
  fieldDictionary : List Field
  bits : Option String
  packStringFormat : String
  encoding_type : String
  startSerialNumber : Int
  numOfSerialNumbers : Int
  fixedSerialNumberLength : Nat
  fixedGS1SerialNumberLength : Nat
  serial_number : Int
  deriving DecidableEq

/-- Modelled from the spec: FieldDictionary lookup (§4.2; the FieldDictionary class
from tagberry.schema is not under src): the field registered under the name, or
UnknownFieldError when absent. -/
def lookupField : List Field → String → Except EpcError Field
  | [], n => .error (.unknownFieldError n)
  | f :: fs, n => if f.name = n then .ok f else lookupField fs n

/-- Modelled from the spec: assignment to the value of the field registered under the
name, leaving layout order, widths and the other fields unchanged (§4.1, §4.2). -/
def setValueInDict : List Field → String → FieldVal → List Field
  | [], _, _ => []
  | f :: fs, n, v => if f.name = n then { f with value := v } :: fs else f :: setValueInDict fs n v

/-- Total bit width of a scheme: the sum of the resolved field widths (§3 of the
spec: this equals the scheme's fixed total width, e.g. 96). -/
def totalBitWidth (d : List Field) : Nat := (d.map (fun f => f.bitWidth)).sum

/-- Numeric value of a field value for bit packing. -/
def valToNat : FieldVal → Nat
  | .int i => i.toNat
  | .str s => natOfDec s

/-- Modelled from the spec: bit-string synthesis (§2, §4.4; performed by the concrete
scheme classes, not under src): concatenate, in field-dictionary order, each field's
fixed-width binary representation, zero-padded to its resolved width. -/
def synthesizeBits (d : List Field) : String :=
  String.join (d.map (fun f => padBinary (valToNat f.value) f.bitWidth))

/-- Modelled from the spec: the resynthesis hook called as self._updateBitString() at
the end of setFieldValue (src line 57); its implementation lives in the concrete
scheme classes, which are not under src.  Per the spec (§3 lifecycle, §4.4) every
successful mutation eagerly resynthesizes the canonical bit string from the fields. -/
def updateBitString (e : EPCNumber) : EPCNumber :=
  { e with bits := some (synthesizeBits e.fieldDictionary) }

/-- Modelled from the spec: generic Field value validation applied on assignment
(§4.1; the Field class is not under src): a numeric value must satisfy
0 ≤ value < 2 ^ bitWidth, a digit string its fixed character length and charset. -/
def validFieldValue (f : Field) (v : FieldVal) : Bool :=
  match v with
  | .int i => decide (0 ≤ i ∧ i < (2 : Int) ^ f.bitWidth)
  | .str s => decide (s.length = f.charLength) && s.data.all Char.isDigit

/-- Modelled from the spec: the serial-number validation rules (§4.4), shared by
validate_serial_number: with a nonzero fixed serial-number length the value must be a
nonnegative number of at most that many digits (zero-padded); otherwise a free-length
numeric serial must satisfy 0 ≤ value < 2 ^ serial bit width.  Failure is
InvalidSerialNumberError. -/
def validateSerialCore (fixedLen width : Nat) (v : FieldVal) : Except EpcError FieldVal :=
  match pyInt v with
  | .error _ => .error (.invalidSerialNumberError "Serial number must be numeric.")
  | .ok i =>
      if fixedLen ≠ 0 then
        if 0 ≤ i ∧ decimalLen i ≤ fixedLen then .ok v
        else .error (.invalidSerialNumberError "Serial number does not conform to the fixed serial number length.")
      else
        if 0 ≤ i ∧ i < (2 : Int) ^ width then .ok v
        else .error (.invalidSerialNumberError "Serial number does not fit in the serial number field.")

/-- Modelled from the spec: validate_serial_number (src lines 290-301 declare it with
a docstring only — the docstring documents validation raising InvalidSerialNumber,
but no body is under src).  Per §4.4 it validates the value against the scheme's
fixed serial-number length or, for free-length serials, against the SerialNumber
field's bit width. -/
def validate_serial_number (e : EPCNumber) (v : FieldVal) : Except EpcError FieldVal :=
  match lookupField e.fieldDictionary "SerialNumber" with
  | .error err => .error err
  | .ok f => validateSerialCore e.fixedSerialNumberLength f.bitWidth v

/-- setFieldValue (src lines 46-57): a field name that lowercases to "serialnumber" is
routed through validate_serial_number and, on success, the SerialNumber field is
assigned (the serial route applies no generic field validation, per §4.4); any other
name goes through the field-dictionary lookup and validated field assignment.  Both
routes end with the self._updateBitString() resynthesis. -/
def setFieldValue (e : EPCNumber) (fieldName : String) (v : FieldVal) : Except EpcError EPCNumber :=
  if pyLower fieldName = "serialnumber" then
    match validate_serial_number e v with
    | .error err => .error err
    | .ok _ =>
        .ok (updateBitString { e with fieldDictionary := setValueInDict e.fieldDictionary "SerialNumber" v })
  else
    match lookupField e.fieldDictionary fieldName with
    | .error err => .error err
    | .ok f =>
        if validFieldValue f v then
          .ok (updateBitString { e with fieldDictionary := setValueInDict e.fieldDictionary fieldName v })
        else .error (.fieldValueError ("Invalid value for field " ++ fieldName))

/-- getFieldValue (src lines 59-65): dictionary lookup followed by the field's
value accessor. -/
def getFieldValue (e : EPCNumber) (fieldName : String) : Except EpcError FieldVal :=
  match lookupField e.fieldDictionary fieldName with
  | .error err => .error err
  | .ok f => .ok f.value

/-- getField (src lines 67-72): returns the Field object itself. -/
def getField (e : EPCNumber) (fieldName : String) : Except EpcError Field :=
  lookupField e.fieldDictionary fieldName

/-- increment (src lines 247-250): read the numeric serial, add the count, write it
back through setFieldValue, return the new value. -/
def increment (e : EPCNumber) (count : Int) : Except EpcError (Int × EPCNumber) :=
  match getFieldValue e "SerialNumber" with
  | .error err => .error err
  | .ok v =>
      match pyInt v with
      | .error err => .error err
      | .ok s =>
          match setFieldValue e "SerialNumber" (.int (s + count)) with
          | .error err => .error err
          | .ok e' => .ok (s + count, e')

/-- decrement (src lines 252-257): read the numeric serial, subtract the count, and
raise FieldValueException("Serial number field may not be below 0.") when the result
is negative — this check comes before the write, so on failure no state is produced
and the serial field and bit string are untouched. -/
def decrement (e : EPCNumber) (count : Int) : Except EpcError (Int × EPCNumber) :=
  match getFieldValue e "SerialNumber" with
  | .error err => .error err
  | .ok v =>
      match pyInt v with
      | .error err => .error err
      | .ok s =>
          if s - count < 0 then .error (.fieldValueError "Serial number field may not be below 0.")
          else
            match setFieldValue e "SerialNumber" (.int (s - count)) with
            | .error err => .error err
            | .ok e' => .ok (s - count, e')

/-- toHex (src lines 188-192): hex(int(self._bits, 2))[2:].upper().  When _bits is
still None, int(None, 2) is a TypeError. -/
def toHex (e : EPCNumber) : Except EpcError String :=
  match e.bits with
  | none => .error (.typeError "int() can't convert non-string with explicit base")
  | some b => .ok (pyUpper ⟨Nat.toDigits 16 (natOfBits b)⟩)

/-- toBinary (src lines 198-200): returns _bits. -/
def toBinary (e : EPCNumber) : Option String := e.bits

/-- Splits a canonical bit string over the fields in layout order, assigning each
field the value of its width-sized chunk (spec §4.4 decode path). -/
def populateFields : List Field → String → List Field
  | [], _ => []
  | f :: fs, s =>
      { f with value := .int ((natOfBits (s.take f.bitWidth) : Nat) : Int) } ::
        populateFields fs (s.drop f.bitWidth)

/-- Modelled from the spec: decodeFromBinary is abstract in src (implemented by the
concrete scheme classes).  Per §4.4 and §6 it takes the canonical bit string — a
fixed-length string of '0'/'1' characters whose length is the scheme's total bit
width — splits it by the layout order and widths, populates the fields, and stores
the bit string unmodified as canonical; anything else is not a canonical bit string
and fails. -/
def decodeFromBinary (e : EPCNumber) (binary : String) : Except EpcError EPCNumber :=
  if binary.length = totalBitWidth e.fieldDictionary ∧ binary.data.all isBitChar then
    .ok { e with
      bits := some binary,
      fieldDictionary := populateFields e.fieldDictionary binary }
  else .error (.encodingError "Binary string is not a canonical bit string of the scheme")

/-- Embedding of Python's int(s, 16): ValueError unless the string is nonempty
hexadecimal. -/
def pyIntBase16 (s : String) : Except EpcError Nat :=
  if s ≠ "" ∧ s.data.all isHexDigitChar then .ok (natOfHex s)
  else .error (.valueError "invalid literal for int() with base 16")

/-- decodeFromHex (src lines 279-284): bits = bin(int(hex_val, 16)), then
decodeFromBinary(bits).  Note bin() yields a "0b"-prefixed string with all leading
zero bits dropped. -/
def decodeFromHex (e : EPCNumber) (hexVal : String) : Except EpcError EPCNumber :=
  match pyIntBase16 hexVal with
  | .error err => .error err
  | .ok n => decodeFromBinary e (pyBin n)

/-- fromHex (src lines 184-186): delegates to decodeFromHex. -/
def fromHex (e : EPCNumber) (hexVal : String) : Except EpcError EPCNumber :=
  decodeFromHex e hexVal

/-- toIDPAT (src lines 209-213): "urn:epc:idpat:\x7b0\x7d:\x7b1\x7d.\x7b2\x7d.\x7b3\x7d".format(
self._encoding_type, self.getField("companyPrefix"), args).  The str() renderings of
the Field object and of the varargs tuple are not under src, so they are taken as
parameters `fieldStr` and `tupleStr`; exactly three positional arguments are passed,
matching the source call. -/
def toIDPAT (e : EPCNumber) (fieldStr : Field → String) (tupleStr : List String → String)
    (args : List String) : Except EpcError String :=
  match getField e "companyPrefix" with
  | .error err => .error err
  | .ok f =>
      match pyFormat "urn:epc:idpat:\x7b0\x7d:\x7b1\x7d.\x7b2\x7d.\x7b3\x7d"
          [e.encoding_type, fieldStr f, tupleStr args] with
      | some out => .ok out
      | none => .error (.indexError "Replacement index 3 out of range for positional args tuple")

/-- The rendering method selected by one branch of format's if-chain (the renderers
themselves are abstract hooks or separate methods; the dispatch is what the format
method itself decides).  `toEPCTagUriCall` marks the self.toEPCTagUri() call of the
"tag"/"epctag"/"epctaguri" branches. -/
inductive FormatTarget where
  | toHexCall
  | toXmlCall
  | toJSONCall
  | toDictionaryCall
  | toBinaryCall
  | toEPCTagUriCall
  | toGS1Call
  deriving DecidableEq

/-- The if-chain of format after format = format.lower() (src lines 223-245); the
chain has no else branch, so an unrecognized key falls through and the method returns
None, embedded as none. -/
def formatDispatch (f : String) : Option FormatTarget :=
  if f = "hex" then some .toHexCall
  else if f = "xml" then some .toXmlCall
  else if f = "json" then some .toJSONCall
  else if f = "dict" then some .toDictionaryCall
  else if f = "dictionary" then some .toDictionaryCall
  else if f = "binary" then some .toBinaryCall
  else if f = "bin" then some .toBinaryCall
  else if f = "tag" then some .toEPCTagUriCall
  else if f = "epctag" then some .toEPCTagUriCall
  else if f = "epctaguri" then some .toEPCTagUriCall
  else if f = "gs1" then some .toGS1Call
  else none

/-- format (src lines 219-245): lowercases the key, then dispatches through the
if-chain. -/
def format (fmt : String) : Option FormatTarget :=
  formatDispatch (pyLower fmt)

/-- The serialnumber property getter (src lines 131-145): its body is
raise NotImplemented("The serialnumber getter is not implemented"), so the getter
never returns a value.  (At the CPython level the access fails with a TypeError even
before the raise — the declared getter takes a spurious value parameter, and
NotImplemented is not an exception class — but under the shallow embedding the
observable contract is the same: every read fails at this unimplemented stub.) -/
def serialnumber_get (e : EPCNumber) : Except EpcError FieldVal :=
  .error (.notImplementedError "The serialnumber getter is not implemented")

/-- A scheme state with the given field dictionary and bit string and all other
attributes at their __init__ defaults, with SGTIN96 as the encoding type tag. -/
def baseScheme (d : List Field) (b : Option String) : EPCNumber :=
  { fieldDictionary := d, bits := b, packStringFormat := "", encoding_type := "SGTIN96",
    startSerialNumber := 0, numOfSerialNumbers := 0, fixedSerialNumberLength := 0,
    fixedGS1SerialNumberLength := 0, serial_number := 0 }

/-- A 4-bit scheme holding the canonical bit string "0001" (a valid canonical bit
string with leading zero bits). -/
def c1scheme : EPCNumber := baseScheme [⟨"header", 4, 0, .int 1⟩] (some "0001")

/-- An SGTIN96-tagged scheme whose dictionary holds a companyPrefix field with the
digit string value "0614141". -/
def c2scheme : EPCNumber := baseScheme [⟨"companyPrefix", 24, 7, .str "0614141"⟩] none

/-- A two-field scheme used to exercise a successful generic field mutation. -/
def c3sample : EPCNumber :=
  baseScheme [⟨"header", 8, 0, .int 0⟩, ⟨"SerialNumber", 4, 0, .int 0⟩] none

/-- The state of c3sample after setFieldValue("header", 3). -/
def c3after : EPCNumber :=
  baseScheme [⟨"header", 8, 0, .int 3⟩, ⟨"SerialNumber", 4, 0, .int 0⟩] (some "000000110000")

/-- A scheme whose serial number is 0. -/
def c4sample : EPCNumber := baseScheme [⟨"SerialNumber", 4, 0, .int 0⟩] none

/-- A scheme whose serial number is 5 (valid for the 4-bit serial field). -/
def c5sample : EPCNumber := baseScheme [⟨"SerialNumber", 4, 0, .int 5⟩] none

/-- The state of c5sample after increment(2). -/
def c5after : EPCNumber := baseScheme [⟨"SerialNumber", 4, 0, .int 7⟩] (some "0111")

/-- A scheme used to exercise the serial-number route of setFieldValue. -/
def c8sample : EPCNumber := baseScheme [⟨"SerialNumber", 4, 0, .int 0⟩] none

/-- A scheme whose SerialNumber field holds 9. -/
def c9sample : EPCNumber := baseScheme [⟨"SerialNumber", 4, 0, .int 9⟩] (some "1001")

theorem pyCharLower_idem (c : Char) : pyCharLower (pyCharLower c) = pyCharLower c := by
  by_cases h : 65 ≤ c.toNat ∧ c.toNat ≤ 90
  · simp only [pyCharLower]
    rw [if_pos h]
    obtain ⟨h1, h2⟩ := h
    generalize c.toNat = m at h1 h2 ⊢
    interval_cases m <;> decide
  · simp only [pyCharLower]
    rw [if_neg h, if_neg h]

theorem pyLower_idem (s : String) : pyLower (pyLower s) = pyLower s := by
  have hl : ∀ l : List Char, (l.map pyCharLower).map pyCharLower = l.map pyCharLower := by
    intro l
    induction l with
    | nil => rfl
    | cons c cs ih => simp [ih, pyCharLower_idem]
  show String.mk ((s.data.map pyCharLower).map pyCharLower) = String.mk (s.data.map pyCharLower)
  rw [hl]

theorem lookup_set_self (d : List Field) (n : String) (v : FieldVal) (f : Field)
    (h : lookupField d n = .ok f) :
    lookupField (setValueInDict d n v) n = .ok { f with value := v } := by
  induction d with
  | nil => exact Except.noConfusion h
  | cons g gs ih =>
    unfold lookupField at h
    by_cases hg : g.name = n
    · rw [if_pos hg] at h
      injection h with hgf
      subst hgf
      show lookupField (setValueInDict (g :: gs) n v) n = _
      unfold setValueInDict
      rw [if_pos hg]
      unfold lookupField
      rw [if_pos (show ({ g with value := v } : Field).name = n from hg)]
    · rw [if_neg hg] at h
      have hrec := ih h
      show lookupField (setValueInDict (g :: gs) n v) n = _
      unfold setValueInDict
      rw [if_neg hg]
      unfold lookupField
      rw [if_neg hg]
      exact hrec

/-- Claim C10: fromHex and decodeFromHex are the same hex-decoding entry point — for
every instance and every hex string the two return exactly the same result, because
fromHex only delegates to decodeFromHex (src lines 184-186). -/
theorem fromHex_eq_decodeFromHex (e : EPCNumber) (hexVal : String) :
    fromHex e hexVal = decodeFromHex e hexVal := rfl

/-- Claim C7: format is case-insensitive in its key: format(k) equals format of the
lowercased key for every key k, because the method lowercases the key before the
dispatch chain (src line 223); in particular format("HEX"), format("hex") and
format("Hex") are identical. -/
theorem format_case_insensitive (k : String) : format k = format (pyLower k) := by
  unfold format
  rw [pyLower_idem]

/-- Claim C6 (code divergence): for any key whose lowercase form is outside the
recognized set, format returns None (the if-chain has no else branch, src lines
224-245) instead of failing with an UnsupportedFormatError as the claim states. -/
theorem format_unrecognized_returns_none (fmt : String)
    (h : pyLower fmt ∉ ["hex", "xml", "json", "dict", "dictionary", "binary", "bin",
      "tag", "epctag", "epctaguri", "gs1"]) :
    format fmt = none := by
  unfold format
  revert h
  generalize pyLower fmt = f
  intro h
  unfold formatDispatch
  repeat rw [if_neg (by intro hc; subst hc; exact h (by decide))]

/-- Witness for claim C6: format("bogus") evaluates to none. -/
theorem format_unrecognized_returns_none_witness : format "bogus" = none :=
  format_unrecognized_returns_none "bogus" (by decide)

/-- Claim C3: every setFieldValue call that returns normally ends with the
self._updateBitString() resynthesis (src line 57), so the stored canonical bit string
of the resulting state is exactly the synthesis of its (updated) field dictionary —
mutation and synthesis form one atomic step as observed by callers; in the functional
embedding a failing call produces no state at all, so no observer can see a field
updated without the bit string reflecting it. -/
theorem setFieldValue_resynthesizes_bits (e : EPCNumber) (n : String) (v : FieldVal)
    (e' : EPCNumber) (h : setFieldValue e n v = .ok e') :
    e'.bits = some (synthesizeBits e'.fieldDictionary) := by
  unfold setFieldValue at h
  by_cases hn : pyLower n = "serialnumber"
  · rw [if_pos hn] at h
    cases hv : validate_serial_number e v with
    | error err => rw [hv] at h; exact Except.noConfusion h
    | ok w =>
      rw [hv] at h
      injection h with h'
      subst h'
      rfl
  · rw [if_neg hn] at h
    cases hl : lookupField e.fieldDictionary n with
    | error err => rw [hl] at h; exact Except.noConfusion h
    | ok f =>
      rw [hl] at h
      by_cases hvf : validFieldValue f v = true
      · simp only [hvf, if_true] at h
        injection h with h'
        subst h'
        rfl
      · simp only [hvf, if_false] at h
        exact Except.noConfusion h

/-- Claim C4: for a scheme whose numeric serial value is s, decrement(count) with
s - count < 0 fails with FieldValueException("Serial number field may not be below
0.") (src lines 254-255); the check precedes the setFieldValue write, and in the
embedding the error carries no successor state, so the SerialNumber field and the
canonical bit string are untouched on failure.  In particular decrement on a serial
of 0 fails this way (see the witness). -/
theorem decrement_below_zero_fails (e : EPCNumber) (v : FieldVal) (s count : Int)
    (h1 : getFieldValue e "SerialNumber" = .ok v)
    (h2 : pyInt v = .ok s)
    (h3 : s - count < 0) :
    decrement e count = .error (.fieldValueError "Serial number field may not be below 0.") := by
  unfold decrement
  rw [h1]
  dsimp only
  rw [h2]
  dsimp only
  rw [if_pos h3]

/-- Claim C5: for a scheme whose SerialNumber holds a valid numeric serial s (one
accepted by the serial-number validation), if increment(count) succeeds — which is
exactly the case when s + count is a valid serial — then decrement(count) on the
result succeeds and returns s, and the SerialNumber field holds s again: increment
followed by decrement by the same count is the identity on the serial field. -/
theorem increment_then_decrement_identity (e : EPCNumber) (s count r : Int) (e1 : EPCNumber)
    (hs : getFieldValue e "SerialNumber" = .ok (.int s))
    (hval : validate_serial_number e (.int s) = .ok (.int s))
    (hinc : increment e count = .ok (r, e1)) :
    ∃ e2, decrement e1 count = .ok (s, e2) ∧ getFieldValue e2 "SerialNumber" = .ok (.int s) := by
  obtain ⟨f, hf⟩ : ∃ f, lookupField e.fieldDictionary "SerialNumber" = .ok f := by
    unfold getFieldValue at hs
    cases hl : lookupField e.fieldDictionary "SerialNumber" with
    | error err => rw [hl] at hs; exact Except.noConfusion hs
    | ok f => exact ⟨f, rfl⟩
  unfold increment at hinc
  rw [hs] at hinc
  dsimp only [pyInt] at hinc
  cases hset : setFieldValue e "SerialNumber" (.int (s + count)) with
  | error err => rw [hset] at hinc; exact Except.noConfusion hinc
  | ok e1' =>
    rw [hset] at hinc
    dsimp only at hinc
    injection hinc with hpair
    injection hpair with hr he1
    unfold setFieldValue at hset
    rw [if_pos (show pyLower "SerialNumber" = "serialnumber" by decide)] at hset
    cases hv2 : validate_serial_number e (.int (s + count)) with
    | error err2 => rw [hv2] at hset; exact Except.noConfusion hset
    | ok w =>
      rw [hv2] at hset
      dsimp only at hset
      injection hset with hx
      have he1eq : e1 = updateBitString { e with
          fieldDictionary := setValueInDict e.fieldDictionary "SerialNumber" (.int (s + count)) } :=
        he1.symm.trans hx.symm
      have hdict1 : e1.fieldDictionary =
          setValueInDict e.fieldDictionary "SerialNumber" (.int (s + count)) := by
        rw [he1eq]
        rfl
      have hfix1 : e1.fixedSerialNumberLength = e.fixedSerialNumberLength := by
        rw [he1eq]
        rfl
      have hlook1 : lookupField e1.fieldDictionary "SerialNumber" =
          .ok { f with value := .int (s + count) } := by
        rw [hdict1]
        exact lookup_set_self _ _ _ _ hf
      unfold validate_serial_number at hval
      rw [hf] at hval
      dsimp only at hval
      have hs0 : 0 ≤ s := by
        unfold validateSerialCore at hval
        dsimp only [pyInt] at hval
        by_cases hfx : e.fixedSerialNumberLength ≠ 0
        · rw [if_pos hfx] at hval
          by_cases hc : 0 ≤ s ∧ decimalLen s ≤ e.fixedSerialNumberLength
          · exact hc.1
          · rw [if_neg hc] at hval; exact Except.noConfusion hval
        · rw [if_neg hfx] at hval
          by_cases hc : 0 ≤ s ∧ s < (2 : Int) ^ f.bitWidth
          · exact hc.1
          · rw [if_neg hc] at hval; exact Except.noConfusion hval
      have hval1 : validate_serial_number e1 (.int s) = .ok (.int s) := by
        unfold validate_serial_number
        rw [hlook1]
        dsimp only
        rw [hfix1]
        exact hval
      have hget1 : getFieldValue e1 "SerialNumber" = .ok (.int (s + count)) := by
        unfold getFieldValue
        rw [hlook1]
      have hsetb : setFieldValue e1 "SerialNumber" (.int s) =
          .ok (updateBitString { e1 with
            fieldDictionary := setValueInDict e1.fieldDictionary "SerialNumber" (.int s) }) := by
        unfold setFieldValue
        rw [if_pos (show pyLower "SerialNumber" = "serialnumber" by decide), hval1]
      refine ⟨updateBitString { e1 with
        fieldDictionary := setValueInDict e1.fieldDictionary "SerialNumber" (.int s) }, ?_, ?_⟩
      · unfold decrement
        rw [hget1]
        dsimp only [pyInt]
        rw [show s + count - count = s by omega]
        rw [if_neg (show ¬ s < 0 by omega)]
        rw [hsetb]
      · have hlook2 : lookupField (setValueInDict e1.fieldDictionary "SerialNumber" (.int s))
            "SerialNumber" = .ok { { f with value := .int (s + count) } with value := .int s } :=
          lookup_set_self _ _ _ _ hlook1
        unfold getFieldValue
        show (match lookupField (setValueInDict e1.fieldDictionary "SerialNumber" (.int s))
            "SerialNumber" with
          | Except.error err => Except.error err
          | Except.ok f => Except.ok f.value) = _
        rw [hlook2]

/-- Claim C1 (code divergence, concrete run): a 4-bit scheme with the valid canonical
bit string "0001" hex-encodes via toHex to "1", but decoding "1" back through
decodeFromHex does not reproduce "0001": decodeFromHex computes bin(int("1", 16)) =
"0b1" — the "0b" prefix retained and the three leading zero bits lost — and hands
that non-canonical string to decodeFromBinary, which rejects it.  The round-trip
therefore fails to restore the original bit string. -/
theorem toHex_then_decodeFromHex_fails :
    c1scheme.bits = some "0001" ∧
    toHex c1scheme = .ok "1" ∧
    decodeFromHex c1scheme "1" =
      .error (.encodingError "Binary string is not a canonical bit string of the scheme") :=
  ⟨rfl, rfl, rfl⟩

/-- Claim C2 (code divergence): on an SGTIN96 scheme with companyPrefix "0614141",
toIDPAT("*") does not return "urn:epc:idpat:SGTIN96:0614141.*"; the source template
has replacement fields \x7b0\x7d..\x7b3\x7d but str.format receives only three
positional arguments (src line 213), so the call raises IndexError — whatever the
str() renderings of the Field object and the args tuple are. -/
theorem toIDPAT_always_raises (fieldStr : Field → String) (tupleStr : List String → String) :
    toIDPAT c2scheme fieldStr tupleStr ["*"] =
      .error (.indexError "Replacement index 3 out of range for positional args tuple") := rfl

/-- Witness for claim C3: setFieldValue("header", 3) on a concrete scheme succeeds and
the resulting bit string is the synthesis of the updated fields. -/
theorem setFieldValue_resynthesizes_bits_witness :
    setFieldValue c3sample "header" (.int 3) = .ok c3after ∧
    c3after.bits = some (synthesizeBits c3after.fieldDictionary) :=
  ⟨rfl, setFieldValue_resynthesizes_bits c3sample "header" (.int 3) c3after rfl⟩

/-- Witness for claim C4: decrement(1) on a serial number of 0 fails with the
below-zero FieldValueException. -/
theorem decrement_below_zero_fails_witness :
    decrement c4sample 1 = .error (.fieldValueError "Serial number field may not be below 0.") :=
  decrement_below_zero_fails c4sample (.int 0) 0 1 rfl rfl (by decide)

/-- Witness for claim C5: after increment(2) on a serial of 5, decrement(2) returns 5
and the SerialNumber field holds 5 again. -/
theorem increment_then_decrement_identity_witness :
    ∃ e2, decrement c5after 2 = .ok (5, e2) ∧ getFieldValue e2 "SerialNumber" = .ok (.int 5) :=
  increment_then_decrement_identity c5sample 5 2 7 c5after rfl rfl rfl

/-- Claim C8: setFieldValue routes any field name that lowercases to "serialnumber"
through validate_serial_number — an invalid serial fails the call with the
validator's InvalidSerialNumberError and a valid one assigns the SerialNumber field
with no generic field validation — while every other field name is set through the
generic field-dictionary lookup and validated field assignment (src lines 51-57). -/
theorem setFieldValue_serial_routing (e : EPCNumber) (n : String) (v : FieldVal) :
    (pyLower n = "serialnumber" →
      (∀ m, validate_serial_number e v = .error (.invalidSerialNumberError m) →
        setFieldValue e n v = .error (.invalidSerialNumberError m)) ∧
      (∀ w, validate_serial_number e v = .ok w →
        setFieldValue e n v =
          .ok (updateBitString { e with
            fieldDictionary := setValueInDict e.fieldDictionary "SerialNumber" v }))) ∧
    (pyLower n ≠ "serialnumber" →
      setFieldValue e n v =
        match lookupField e.fieldDictionary n with
        | .error err => .error err
        | .ok f =>
            if validFieldValue f v then
              .ok (updateBitString { e with
                fieldDictionary := setValueInDict e.fieldDictionary n v })
            else .error (.fieldValueError ("Invalid value for field " ++ n))) := by
  constructor
  · intro hn
    constructor
    · intro m hv
      unfold setFieldValue
      rw [if_pos hn, hv]
    · intro w hv
      unfold setFieldValue
      rw [if_pos hn, hv]
  · intro hn
    unfold setFieldValue
    rw [if_neg hn]

/-- Witness for claim C8: setting "SerialNumber" to -1 fails with
InvalidSerialNumberError from the serial-number validation route. -/
theorem setFieldValue_serial_routing_witness :
    setFieldValue c8sample "SerialNumber" (.int (-1)) =
      .error (.invalidSerialNumberError "Serial number does not fit in the serial number field.") :=
  ((setFieldValue_serial_routing c8sample "SerialNumber" (.int (-1))).1 (by decide)).1
    "Serial number does not fit in the serial number field." rfl

/-- Claim C9: reading the serialnumber property always fails — the getter body is the
unimplemented-stub raise (src line 145) and never returns a value — while
getFieldValue("SerialNumber") succeeds and returns the stored serial value whenever
the SerialNumber field is present in the field dictionary. -/
theorem serialnumber_getter_always_fails (e : EPCNumber) (f : Field)
    (h : lookupField e.fieldDictionary "SerialNumber" = .ok f) :
    serialnumber_get e = .error (.notImplementedError "The serialnumber getter is not implemented") ∧
    getFieldValue e "SerialNumber" = .ok f.value := by
  refine ⟨rfl, ?_⟩
  unfold getFieldValue
  rw [h]

/-- Witness for claim C9: on a concrete scheme the serialnumber getter fails while
getFieldValue("SerialNumber") returns 9. -/
theorem serialnumber_getter_always_fails_witness :
    serialnumber_get c9sample =
      .error (.notImplementedError "The serialnumber getter is not implemented") ∧
    getFieldValue c9sample "SerialNumber" = .ok (.int 9) :=
  serialnumber_getter_always_fails c9sample ⟨"SerialNumber", 4, 0, .int 9⟩ rfl
